import Mathlib

/-!
Verification development for the RescueAI triage service (`src/main.py`).

The file shallow-embeds the `/webhook` endpoint of the FastAPI app together
with the three in-memory stores (`content_store`, `hospital_store`,
`consultation_store`) and the forwarding helpers `forward_to_hospital` /
`forward_to_consultation`.

Modelling choices, each tied to the source:
* JSON values returned by `json.loads` / `request.json()` are the inductive
  `JsonVal`; Python dicts are association lists (`Dict`) looked up with
  `dictGet?` (first match, as Python dicts cannot hold duplicate keys).
* The remote Groq call (lines 99-117) is modelled by an `OracleOutcome`
  argument: either the SDK call raises (`unavailable`, covering transport
  errors and timeouts) or it returns the raw answer text of
  `chat_completion.choices[0].message.content`.
* Python's `json.loads` applied to the answer text (line 121) is an
  abstract parameter `jsonLoads : String → Option JsonVal`; `none` models
  any exception from `json.loads`, `some v` a successful parse. The claims
  only distinguish parse success from failure, never the JSON grammar.
* Python runtime errors that the endpoint can hit are the `PyError`
  inductive; the outer `except Exception` (lines 142-143) maps every one of
  them, as well as the Groq exception, to `HTTPException(status_code=400)`.
* `content_store.append(data)` at line 75 stores a reference to the same
  dict object that lines 138-139 later mutate.  The model therefore records,
  in the final state, the value the stored cell holds when the request
  returns: the mutated dict on the success path through the
  `extracted_data` branch, and the raw dict whenever processing stopped
  before line 138 (no-`extracted_data` path and every exception path after
  line 75).
* `str.lower()` (line 132) is modelled by ASCII case folding `pyStrLower`,
  which is exact on every status string the program compares.
-/

set_option maxRecDepth 8192

/-- JSON values as produced by Python's `json.loads` / `request.json()`. -/
inductive JsonVal : Type where
  | str (s : String)
  | num (n : Int)
  | boolean (b : Bool)
  | null
  | arr (elems : List JsonVal)
  | obj (kvs : List (String × JsonVal))

/-- A Python dict with JSON values: an association list keyed by strings. -/
abbrev Dict := List (String × JsonVal)

/-- Looks up a key in a dict, returning the first binding (Python dicts have
unique keys, so this is exact). Models `d[k]`-style presence and `k in d`. -/
def dictGet? (d : Dict) (k : String) : Option JsonVal :=
  match d with
  | [] => none
  | (k', v) :: rest => if k' == k then some v else dictGet? rest k

/-- Models Python's `d.get(k, dflt)` on a dict `d`. -/
def dictGetD (d : Dict) (k : String) (dflt : JsonVal) : JsonVal :=
  (dictGet? d k).getD dflt

/-- Models Python's `k in d` membership test on a dict (line 78). -/
def dictHasKey (d : Dict) (k : String) : Bool :=
  (dictGet? d k).isSome

/-- Models Python's `d[k] = v` on a dict: replace the value at an existing
key in place, or append a new binding at the end (lines 138-139). -/
def dictSet (d : Dict) (k : String) (v : JsonVal) : Dict :=
  match d with
  | [] => [(k, v)]
  | (k', v') :: rest =>
      if k' == k then (k', v) :: rest else (k', v') :: dictSet rest k v

/-- Python exceptions the `/webhook` endpoint can raise internally; the
outer `except Exception` at lines 142-143 converts each into
`HTTPException(status_code=400, detail=f"Invalid JSON data: ...")`. -/
inductive PyError : Type where
  /-- The request body is not valid JSON: `await request.json()` raised (line 71). -/
  | jsonDecodeError
  /-- The Groq SDK call raised (transport error, timeout, non-success
  response), lines 99-117. -/
  | classifierFailure
  /-- An `AttributeError`: `.get` called on a non-dict value, or `.lower()`
  called on a non-string value (lines 126-128 and 132). -/
  | attributeError

/-- Models Python's `v.get(k, dflt)` where `v` is an arbitrary JSON value:
succeeds only when `v` is a dict, otherwise raises `AttributeError`. -/
def pyGet (v : JsonVal) (k : String) (dflt : JsonVal) : Except PyError JsonVal :=
  match v with
  | JsonVal.obj d => Except.ok (dictGetD d k dflt)
  | _ => Except.error PyError.attributeError

/-- ASCII case folding of one character, as `str.lower()` performs on the
ASCII range (all that line 132's comparison ever needs). -/
def asciiLower (c : Char) : Char :=
  if 'A' ≤ c ∧ c ≤ 'Z' then Char.ofNat (c.toNat + 32) else c

/-- Models Python's `str.lower()` on the ASCII range. -/
def pyStrLower (s : String) : String :=
  String.mk (s.data.map asciiLower)

/-- Models Python's `v.lower()` where `v` is an arbitrary JSON value:
succeeds only when `v` is a string, otherwise raises `AttributeError`. -/
def pyLower (v : JsonVal) : Except PyError String :=
  match v with
  | JsonVal.str s => Except.ok (pyStrLower s)
  | _ => Except.error PyError.attributeError

/-- Outcome of the Groq chat-completion call at lines 99-117: the SDK call
either raises (transport failure / timeout / non-success response) or
returns the raw answer text `chat_completion.choices[0].message.content`. -/
inductive OracleOutcome : Type where
  | unavailable
  | answer (text : String)

/-- The fallback dict built in the `except` branch at lines 124-129 when
`json.loads` fails on the Groq answer.  Each value is read with `.get` and
an empty-string default; reading raises `AttributeError` when the event's
`extracted_data` or `context_details` value is not itself a dict. -/
def fallbackResponse (data : Dict) : Except PyError Dict :=
  match pyGet (dictGetD data "extracted_data" (JsonVal.obj [])) "location" (JsonVal.str "") with
  | Except.error e => Except.error e
  | Except.ok loc =>
    match pyGet (dictGetD data "extracted_data" (JsonVal.obj [])) "issues" (JsonVal.str "") with
    | Except.error e => Except.error e
    | Except.ok iss =>
      match pyGet (dictGetD data "context_details" (JsonVal.obj [])) "recipient_phone_number" (JsonVal.str "") with
      | Except.error e => Except.error e
      | Except.ok ph =>
        Except.ok [("status", JsonVal.str "not emergency"),
                   ("location", loc),
                   ("issue", iss),
                   ("recipient_phone_number", ph)]

/-- Lines 119-129: parse the Groq answer text with `json.loads`; on any
parsing exception fall back to the deterministic dict of lines 124-129.
`jsonLoads` abstracts Python's `json.loads` (`none` = it raised). -/
def parseGroqResponse (jsonLoads : String → Option JsonVal) (text : String)
    (data : Dict) : Except PyError JsonVal :=
  match jsonLoads text with
  | some v => Except.ok v
  | none =>
    match fallbackResponse data with
    | Except.ok d => Except.ok (JsonVal.obj d)
    | Except.error e => Except.error e

/-- The three module-level in-memory stores (lines 16-18). -/
structure St : Type where
  content_store : List Dict
  hospital_store : List JsonVal
  consultation_store : List JsonVal

/-- Lines 21-23: append the payload to `hospital_store` and return the
acknowledgement message. -/
def forward_to_hospital (d : JsonVal) (st : St) : Dict × St :=
  ([("message", JsonVal.str "Data forwarded to hospital.")],
   { st with hospital_store := st.hospital_store ++ [d] })

/-- Lines 25-27: append the payload to `consultation_store` and return the
acknowledgement message. -/
def forward_to_consultation (d : JsonVal) (st : St) : Dict × St :=
  ([("message", JsonVal.str "Data forwarded to consultation.")],
   { st with consultation_store := st.consultation_store ++ [d] })

/-- The branch taken by the dispatch at lines 131-135. -/
inductive Destination : Type where
  | hospital
  | consultation

/-- Lines 98-139, the body of the `if "extracted_data" in data` branch:
call Groq, parse the answer (with fallback), dispatch on the lower-cased
status, forward, and set the `groq_response` / `forward_result` keys on the
event dict.  Returns the mutated dict, the updated stores and the branch
taken; any raised exception propagates as `Except.error`. -/
def processEvent (jsonLoads : String → Option JsonVal) (oracle : OracleOutcome)
    (data : Dict) (st : St) : Except PyError (Dict × St × Destination) :=
  match oracle with
  | OracleOutcome.unavailable => Except.error PyError.classifierFailure
  | OracleOutcome.answer text =>
    match parseGroqResponse jsonLoads text data with
    | Except.error e => Except.error e
    | Except.ok groq_response =>
      match pyGet groq_response "status" (JsonVal.str "") with
      | Except.error e => Except.error e
      | Except.ok statusVal =>
        match pyLower statusVal with
        | Except.error e => Except.error e
        | Except.ok statusLower =>
          if statusLower == "emergency" then
            Except.ok
              (dictSet (dictSet data "groq_response" groq_response)
                 "forward_result" (JsonVal.obj (forward_to_hospital groq_response st).1),
               (forward_to_hospital groq_response st).2, Destination.hospital)
          else
            Except.ok
              (dictSet (dictSet data "groq_response" groq_response)
                 "forward_result" (JsonVal.obj (forward_to_consultation groq_response st).1),
               (forward_to_consultation groq_response st).2, Destination.consultation)

/-- The request body as seen by line 71: either `await request.json()`
raised, or it produced a JSON object (the event dict). -/
inductive RequestBody : Type where
  | invalid
  | valid (data : Dict)

/-- What the endpoint returns to the HTTP caller: the success payload
`{"status": "success", "message": "Webhook received and processed",
"data": data}` carrying the (possibly mutated) event dict, or the
`HTTPException(status_code=400)` raised at line 143, tagged with the
exception that triggered it. -/
inductive WebhookResponse : Type where
  | success (data : Dict)
  | httpError400 (e : PyError)

/-- Lines 59-143, the `/webhook` endpoint.  The raw event is appended to
`content_store` at line 75; because the list holds a reference to the same
object that lines 138-139 mutate, the stored cell's value at return time is
the mutated dict on the completed `extracted_data` path and the raw dict on
every other path that got past line 75. -/
def webhook (jsonLoads : String → Option JsonVal) (oracle : OracleOutcome)
    (body : RequestBody) (st : St) : WebhookResponse × St :=
  match body with
  | RequestBody.invalid => (WebhookResponse.httpError400 PyError.jsonDecodeError, st)
  | RequestBody.valid data =>
    if dictHasKey data "extracted_data" then
      match processEvent jsonLoads oracle data st with
      | Except.error e =>
        (WebhookResponse.httpError400 e,
         { st with content_store := st.content_store ++ [data] })
      | Except.ok (data', st', _dest) =>
        (WebhookResponse.success data',
         { st' with content_store := st.content_store ++ [data'] })
    else
      (WebhookResponse.success data,
       { st with content_store := st.content_store ++ [data] })

/-! Helper lemmas about the dict operations, shared by the claim proofs. -/

theorem dictGet?_dictSet_self (d : Dict) (k : String) (v : JsonVal) :
    dictGet? (dictSet d k v) k = some v := by
  induction d with
  | nil => simp [dictSet, dictGet?]
  | cons p rest ih =>
    obtain ⟨k', v'⟩ := p
    by_cases h : k' = k
    · simp [dictSet, dictGet?, h]
    · simp [dictSet, dictGet?, h, ih]

theorem dictGet?_dictSet_of_ne (d : Dict) (k k₂ : String) (v : JsonVal)
    (h : k₂ ≠ k) : dictGet? (dictSet d k v) k₂ = dictGet? d k₂ := by
  have h' : ¬k = k₂ := fun hh => h hh.symm
  induction d with
  | nil => simp [dictSet, dictGet?, h']
  | cons p rest ih =>
    obtain ⟨k', v'⟩ := p
    by_cases h1 : k' = k
    · subst h1
      simp [dictSet, dictGet?, h']
    · simp [dictSet, dictGet?, h1, ih]

theorem dictHasKey_dictSet_self (d : Dict) (k : String) (v : JsonVal) :
    dictHasKey (dictSet d k v) k = true := by
  simp [dictHasKey, dictGet?_dictSet_self]

/-! Concrete inputs used to instantiate the theorems: the concrete scenario
of the spec (§8), a transcript event with `extracted_data` and
`context_details`, together with several oracle/parse behaviours. -/

/-- The concrete event from the spec's test scenarios (§8). -/
def exEvent : Dict :=
  [("transcript", JsonVal.str "chest pain"),
   ("extracted_data",
    JsonVal.obj [("location", JsonVal.str "Main St"), ("issues", JsonVal.str "chest pain")]),
   ("context_details", JsonVal.obj [("recipient_phone_number", JsonVal.str "555-1111")])]

/-- Empty stores, the state at service start (lines 16-18). -/
def st0 : St := { content_store := [], hospital_store := [], consultation_store := [] }

/-- A `json.loads` behaviour that parses every text to `{"status": "emergency"}`. -/
def jlEmergency : String → Option JsonVal :=
  fun _ => some (JsonVal.obj [("status", JsonVal.str "emergency")])

/-- A `json.loads` behaviour that raises on every text (malformed answer). -/
def jlFail : String → Option JsonVal := fun _ => none

/-- A `json.loads` behaviour that parses every text to the empty object `{}`. -/
def jlEmptyObj : String → Option JsonVal := fun _ => some (JsonVal.obj [])

/-- A `json.loads` behaviour that parses every text to the JSON array `[]`. -/
def jlArray : String → Option JsonVal := fun _ => some (JsonVal.arr [])

/-- An event without the `extracted_data` key. -/
def exEventBare : Dict := [("transcript", JsonVal.str "hello")]

theorem lower_not_emergency_ne :
    (pyStrLower "not emergency" == "emergency") = false := by decide

/-- C1 counterexample: with the concrete spec scenario event, when the
classifier call fails with a transport error, the webhook does NOT complete
with a heuristic classification routed to consultation — it returns an
HTTP 400 error and the consultation intake is never invoked, contradicting
the claim that the classifier failure is never surfaced to the caller. -/
theorem C1_counterexample :
    (webhook jlFail OracleOutcome.unavailable (RequestBody.valid exEvent) st0).1
      = WebhookResponse.httpError400 PyError.classifierFailure ∧
    (webhook jlFail OracleOutcome.unavailable (RequestBody.valid exEvent) st0).2.consultation_store
      = [] :=
  ⟨rfl, rfl⟩

/-- C1 (amended): for every parseable event containing `extracted_data`,
when the classifier call fails with a transport error or timeout the
webhook aborts with an HTTP 400 error that surfaces the failure to the
caller; no classification is produced and neither intake collaborator is
invoked (only the raw event lands in `content_store`).  The heuristic
fallback applies only when the classifier call returns an answer whose
text fails to parse. -/
theorem C1_classifier_failure_aborts (jsonLoads : String → Option JsonVal)
    (data : Dict) (st : St) (h : dictHasKey data "extracted_data" = true) :
    webhook jsonLoads OracleOutcome.unavailable (RequestBody.valid data) st
      = (WebhookResponse.httpError400 PyError.classifierFailure,
         { st with content_store := st.content_store ++ [data] }) := by
  simp [webhook, processEvent, h]

/-- Witness for C1 (amended) at the spec's concrete scenario event. -/
theorem C1_classifier_failure_aborts_witness :
    dictHasKey exEvent "extracted_data" = true ∧
    webhook jlFail OracleOutcome.unavailable (RequestBody.valid exEvent) st0
      = (WebhookResponse.httpError400 PyError.classifierFailure,
         { st0 with content_store := st0.content_store ++ [exEvent] }) :=
  ⟨rfl, C1_classifier_failure_aborts jlFail exEvent st0 rfl⟩

/-- C2: for every event with `extracted_data` whose parsed oracle answer is
an object whose `status` entry (with `""` substituted when absent) is the
string `s`: if `s` lower-cases to `"emergency"` the hospital intake is
invoked with the parsed object and the consultation store is untouched;
for every other `s` — `"not emergency"`, unrecognized strings, or the
missing-key default — the consultation intake is invoked and the hospital
store is untouched. -/
theorem C2_status_dispatch (jsonLoads : String → Option JsonVal) (t : String)
    (kvs : Dict) (s : String) (data : Dict) (st : St)
    (hkey : dictHasKey data "extracted_data" = true)
    (hparse : jsonLoads t = some (JsonVal.obj kvs))
    (hstatus : dictGetD kvs "status" (JsonVal.str "") = JsonVal.str s) :
    (pyStrLower s = "emergency" →
      (webhook jsonLoads (OracleOutcome.answer t) (RequestBody.valid data) st).2.hospital_store
          = st.hospital_store ++ [JsonVal.obj kvs] ∧
      (webhook jsonLoads (OracleOutcome.answer t) (RequestBody.valid data) st).2.consultation_store
          = st.consultation_store) ∧
    (pyStrLower s ≠ "emergency" →
      (webhook jsonLoads (OracleOutcome.answer t) (RequestBody.valid data) st).2.consultation_store
          = st.consultation_store ++ [JsonVal.obj kvs] ∧
      (webhook jsonLoads (OracleOutcome.answer t) (RequestBody.valid data) st).2.hospital_store
          = st.hospital_store) := by
  constructor
  · intro hemg
    simp [webhook, processEvent, parseGroqResponse, hparse, pyGet, hstatus, pyLower, hemg, hkey,
      forward_to_hospital]
  · intro hemg
    simp [webhook, processEvent, parseGroqResponse, hparse, pyGet, hstatus, pyLower, hemg, hkey,
      forward_to_consultation]

/-- Witness for C2 at the spec's concrete scenario with answer
`{"status": "emergency"}`: the hospital intake receives the classification. -/
theorem C2_status_dispatch_witness :
    dictHasKey exEvent "extracted_data" = true ∧
    (webhook jlEmergency (OracleOutcome.answer "a") (RequestBody.valid exEvent) st0).2.hospital_store
      = st0.hospital_store ++ [JsonVal.obj [("status", JsonVal.str "emergency")]] :=
  ⟨rfl,
   ((C2_status_dispatch jlEmergency "a" [("status", JsonVal.str "emergency")] "emergency"
      exEvent st0 rfl rfl rfl).1 (by decide)).1⟩

/-- C4: for every valid event without the `extracted_data` key, and for
every oracle behaviour (the classifier is never consulted), the webhook
returns success with the event unchanged — no classification, no routing
keys attached — the raw event is appended to `content_store`, and neither
the hospital store nor the consultation store is touched. -/
theorem C4_no_extracted_data (jsonLoads : String → Option JsonVal)
    (oracle : OracleOutcome) (data : Dict) (st : St)
    (h : dictHasKey data "extracted_data" = false) :
    webhook jsonLoads oracle (RequestBody.valid data) st
      = (WebhookResponse.success data,
         { st with content_store := st.content_store ++ [data] }) := by
  simp [webhook, h]

/-- Witness for C4 at a bare transcript event, with an unavailable oracle
to exhibit that no classifier call is made. -/
theorem C4_no_extracted_data_witness :
    dictHasKey exEventBare "extracted_data" = false ∧
    webhook jlFail OracleOutcome.unavailable (RequestBody.valid exEventBare) st0
      = (WebhookResponse.success exEventBare,
         { st0 with content_store := st0.content_store ++ [exEventBare] }) :=
  ⟨rfl, C4_no_extracted_data jlFail OracleOutcome.unavailable exEventBare st0 rfl⟩

/-- Shape of every successful run of the `extracted_data` branch: the
returned dict is the event with `groq_response` and `forward_result` set,
`content_store` is untouched by the branch, and exactly one of the two
intake stores received exactly the classification payload. -/
theorem processEvent_ok_shape (jsonLoads : String → Option JsonVal)
    (oracle : OracleOutcome) (data : Dict) (st : St) (dd : Dict) (stt : St)
    (dest : Destination)
    (h : processEvent jsonLoads oracle data st = Except.ok (dd, stt, dest)) :
    ∃ gr fr,
      dd = dictSet (dictSet data "groq_response" gr) "forward_result" (JsonVal.obj fr) ∧
      stt.content_store = st.content_store ∧
      ((stt.hospital_store = st.hospital_store ++ [gr] ∧
        stt.consultation_store = st.consultation_store) ∨
       (stt.hospital_store = st.hospital_store ∧
        stt.consultation_store = st.consultation_store ++ [gr])) := by
  cases oracle with
  | unavailable => simp [processEvent] at h
  | answer t =>
    simp only [processEvent] at h
    cases hp : parseGroqResponse jsonLoads t data with
    | error e => rw [hp] at h; simp at h
    | ok gr =>
      simp only [hp] at h
      cases hs : pyGet gr "status" (JsonVal.str "") with
      | error e => rw [hs] at h; simp at h
      | ok sv =>
        simp only [hs] at h
        cases hl : pyLower sv with
        | error e => rw [hl] at h; simp at h
        | ok slow =>
          simp only [hl] at h
          by_cases hc : (slow == "emergency") = true
          · rw [if_pos hc] at h
            simp only [forward_to_hospital, Except.ok.injEq, Prod.mk.injEq] at h
            obtain ⟨h1, h2, _⟩ := h
            subst h1; subst h2
            exact ⟨gr, [("message", JsonVal.str "Data forwarded to hospital.")], rfl, rfl,
              Or.inl ⟨rfl, rfl⟩⟩
          · rw [if_neg hc] at h
            simp only [forward_to_consultation, Except.ok.injEq, Prod.mk.injEq] at h
            obtain ⟨h1, h2, _⟩ := h
            subst h1; subst h2
            exact ⟨gr, [("message", JsonVal.str "Data forwarded to consultation.")], rfl, rfl,
              Or.inr ⟨rfl, rfl⟩⟩

/-- Inversion of a successful webhook run through the `extracted_data`
branch: it comes from a successful `processEvent`, and the final state is
the branch's state with the mutated dict appended to `content_store`. -/
theorem webhook_success_inv (jsonLoads : String → Option JsonVal)
    (oracle : OracleOutcome) (data : Dict) (st : St) (d' : Dict) (st' : St)
    (hkey : dictHasKey data "extracted_data" = true)
    (hrun : webhook jsonLoads oracle (RequestBody.valid data) st
              = (WebhookResponse.success d', st')) :
    ∃ stt dest, processEvent jsonLoads oracle data st = Except.ok (d', stt, dest) ∧
      st' = { stt with content_store := st.content_store ++ [d'] } := by
  simp only [webhook, hkey, if_true] at hrun
  cases hpe : processEvent jsonLoads oracle data st with
  | error e => rw [hpe] at hrun; simp at hrun
  | ok res =>
    obtain ⟨dd, stt, dest⟩ := res
    simp only [hpe, Prod.mk.injEq, WebhookResponse.success.injEq] at hrun
    obtain ⟨h1, h2⟩ := hrun
    subst h1
    exact ⟨stt, dest, rfl, h2.symm⟩

/-- The enriched dict a hospital-routed run of the concrete scenario event
produces: the raw event plus the `groq_response` and `forward_result` keys. -/
def exEnrichedHospital : Dict :=
  exEvent ++
    [("groq_response", JsonVal.obj [("status", JsonVal.str "emergency")]),
     ("forward_result", JsonVal.obj [("message", JsonVal.str "Data forwarded to hospital.")])]

/-- The final stores of that hospital-routed run started from empty stores. -/
def stHospitalRun : St :=
  { content_store := [exEnrichedHospital],
    hospital_store := [JsonVal.obj [("status", JsonVal.str "emergency")]],
    consultation_store := [] }

/-- C5 counterexample: running the concrete scenario event to completion
from empty stores leaves exactly ONE record in `content_store`, not two —
no separate enriched record is appended — and that single record has been
altered: it carries the `groq_response` key the raw event never had. -/
theorem C5_counterexample :
    (webhook jlEmergency (OracleOutcome.answer "a") (RequestBody.valid exEvent) st0).2.content_store.length
      = 1 ∧
    dictGet?
        ((webhook jlEmergency (OracleOutcome.answer "a") (RequestBody.valid exEvent) st0).2.content_store.headD [])
        "groq_response"
      = some (JsonVal.obj [("status", JsonVal.str "emergency")]) :=
  ⟨rfl, rfl⟩

/-- C5 (amended): for every event with `extracted_data` processed to
completion, the audit store receives exactly one appended record — the
event dict appended before classification — and, because later processing
mutates that same object, at return time the stored record is the enriched
event: it carries the `groq_response` and `forward_result` keys; no second
record is appended. -/
theorem C5_single_append_mutated (jsonLoads : String → Option JsonVal)
    (oracle : OracleOutcome) (data : Dict) (st : St) (d' : Dict) (st' : St)
    (hkey : dictHasKey data "extracted_data" = true)
    (hrun : webhook jsonLoads oracle (RequestBody.valid data) st
              = (WebhookResponse.success d', st')) :
    st'.content_store = st.content_store ++ [d'] ∧
    dictHasKey d' "groq_response" = true ∧
    dictHasKey d' "forward_result" = true := by
  obtain ⟨stt, dest, hpe, hst⟩ := webhook_success_inv jsonLoads oracle data st d' st' hkey hrun
  obtain ⟨gr, fr, hdd, _, _⟩ := processEvent_ok_shape jsonLoads oracle data st d' stt dest hpe
  refine ⟨by rw [hst], ?_, ?_⟩
  · subst hdd
    rw [dictHasKey, dictGet?_dictSet_of_ne _ _ _ _ (by decide), dictGet?_dictSet_self]
    rfl
  · subst hdd
    rw [dictHasKey, dictGet?_dictSet_self]
    rfl

/-- Witness for C5 (amended) at the concrete hospital-routed run. -/
theorem C5_single_append_mutated_witness :
    stHospitalRun.content_store = st0.content_store ++ [exEnrichedHospital] ∧
    dictHasKey exEnrichedHospital "groq_response" = true ∧
    dictHasKey exEnrichedHospital "forward_result" = true :=
  C5_single_append_mutated jlEmergency (OracleOutcome.answer "a") exEvent st0
    exEnrichedHospital stHospitalRun rfl rfl

/-- C6 counterexample: on the malformed-answer fallback path the record
stored in `content_store` at ingestion time is changed afterwards — after
the run it carries a `groq_response` key that the raw event never had. -/
theorem C6_counterexample :
    dictGet? exEvent "groq_response" = none ∧
    dictGet?
        ((webhook jlFail (OracleOutcome.answer "a") (RequestBody.valid exEvent) st0).2.content_store.headD [])
        "groq_response"
      = some (JsonVal.obj
          [("status", JsonVal.str "not emergency"),
           ("location", JsonVal.str "Main St"),
           ("issue", JsonVal.str "chest pain"),
           ("recipient_phone_number", JsonVal.str "555-1111")]) :=
  ⟨rfl, rfl⟩

/-- C6 (amended): the event's pre-existing fields are immutable — for
every completed run and every key other than the two processing adds
(`groq_response`, `forward_result`), the returned event dict binds the key
exactly as the raw event did; the stored audit record differs from the raw
event only by those two added keys. -/
theorem C6_original_fields_preserved (jsonLoads : String → Option JsonVal)
    (oracle : OracleOutcome) (data : Dict) (st : St) (d' : Dict) (st' : St)
    (k : String)
    (hrun : webhook jsonLoads oracle (RequestBody.valid data) st
              = (WebhookResponse.success d', st'))
    (hk1 : k ≠ "groq_response") (hk2 : k ≠ "forward_result") :
    dictGet? d' k = dictGet? data k := by
  by_cases hkey : dictHasKey data "extracted_data" = true
  · obtain ⟨stt, dest, hpe, _⟩ := webhook_success_inv jsonLoads oracle data st d' st' hkey hrun
    obtain ⟨gr, fr, hdd, _, _⟩ := processEvent_ok_shape jsonLoads oracle data st d' stt dest hpe
    subst hdd
    rw [dictGet?_dictSet_of_ne _ _ _ _ hk2, dictGet?_dictSet_of_ne _ _ _ _ hk1]
  · have hkey' : dictHasKey data "extracted_data" = false := by
      cases hb : dictHasKey data "extracted_data" with
      | true => exact absurd hb hkey
      | false => rfl
    simp only [webhook, hkey', Bool.false_eq_true, if_false, Prod.mk.injEq,
      WebhookResponse.success.injEq] at hrun
    rw [hrun.1]

/-- Witness for C6 (amended): the `transcript` field of the enriched
record of the concrete hospital-routed run equals the raw event's. -/
theorem C6_original_fields_preserved_witness :
    dictGet? exEnrichedHospital "transcript" = dictGet? exEvent "transcript" :=
  C6_original_fields_preserved jlEmergency (OracleOutcome.answer "a") exEvent st0
    exEnrichedHospital stHospitalRun "transcript" rfl (by decide) (by decide)

/-- C8: every event with `extracted_data` processed to completion yields
exactly one classification — the value bound to `groq_response` in the
returned dict — and exactly one intake call: either the hospital store or
the consultation store receives exactly that one payload while the other
is untouched (never both, never zero, never more than one). -/
theorem C8_exactly_one_intake (jsonLoads : String → Option JsonVal)
    (oracle : OracleOutcome) (data : Dict) (st : St) (d' : Dict) (st' : St)
    (hkey : dictHasKey data "extracted_data" = true)
    (hrun : webhook jsonLoads oracle (RequestBody.valid data) st
              = (WebhookResponse.success d', st')) :
    ∃ c, dictGet? d' "groq_response" = some c ∧
      ((st'.hospital_store = st.hospital_store ++ [c] ∧
        st'.consultation_store = st.consultation_store) ∨
       (st'.hospital_store = st.hospital_store ∧
        st'.consultation_store = st.consultation_store ++ [c])) := by
  obtain ⟨stt, dest, hpe, hst⟩ := webhook_success_inv jsonLoads oracle data st d' st' hkey hrun
  obtain ⟨gr, fr, hdd, _, hstores⟩ := processEvent_ok_shape jsonLoads oracle data st d' stt dest hpe
  refine ⟨gr, ?_, ?_⟩
  · subst hdd
    rw [dictGet?_dictSet_of_ne _ _ _ _ (by decide), dictGet?_dictSet_self]
  · subst hst
    simpa using hstores

/-- Witness for C8 at the concrete hospital-routed run. -/
theorem C8_exactly_one_intake_witness :
    ∃ c, dictGet? exEnrichedHospital "groq_response" = some c ∧
      ((stHospitalRun.hospital_store = st0.hospital_store ++ [c] ∧
        stHospitalRun.consultation_store = st0.consultation_store) ∨
       (stHospitalRun.hospital_store = st0.hospital_store ∧
        stHospitalRun.consultation_store = st0.consultation_store ++ [c])) :=
  C8_exactly_one_intake jlEmergency (OracleOutcome.answer "a") exEvent st0
    exEnrichedHospital stHospitalRun rfl rfl

/-- The classification dict that lines 124-129 build, written through the
event's `extracted_data` and `context_details` sub-dicts. -/
def heuristicClassification (ed cd : Dict) : Dict :=
  [("status", JsonVal.str "not emergency"),
   ("location", dictGetD ed "location" (JsonVal.str "")),
   ("issue", dictGetD ed "issues" (JsonVal.str "")),
   ("recipient_phone_number", dictGetD cd "recipient_phone_number" (JsonVal.str ""))]

/-- C3: for every event whose `extracted_data` is a dict (and whose
`context_details`, when present, is a dict), whenever the oracle's answer
text fails to parse the run completes successfully, the classification
attached to the event is exactly the deterministic heuristic — status
`"not emergency"`, location from `extracted_data.location`, issue from
`extracted_data.issues`, contact from `context_details.recipient_phone_number`,
each defaulting to the empty string — and the event is routed to the
consultation intake, for every form of malformed answer. -/
theorem C3_malformed_answer_fallback (jsonLoads : String → Option JsonVal)
    (t : String) (ed cd : Dict) (data : Dict) (st : St)
    (hparse : jsonLoads t = none)
    (hed : dictGet? data "extracted_data" = some (JsonVal.obj ed))
    (hcd : dictGetD data "context_details" (JsonVal.obj []) = JsonVal.obj cd) :
    webhook jsonLoads (OracleOutcome.answer t) (RequestBody.valid data) st
      = (WebhookResponse.success
          (dictSet (dictSet data "groq_response" (JsonVal.obj (heuristicClassification ed cd)))
            "forward_result"
            (JsonVal.obj [("message", JsonVal.str "Data forwarded to consultation.")])),
         { st with
            content_store := st.content_store ++
              [dictSet (dictSet data "groq_response" (JsonVal.obj (heuristicClassification ed cd)))
                "forward_result"
                (JsonVal.obj [("message", JsonVal.str "Data forwarded to consultation.")])],
            consultation_store :=
              st.consultation_store ++ [JsonVal.obj (heuristicClassification ed cd)] }) := by
  have hkey : dictHasKey data "extracted_data" = true := by
    simp [dictHasKey, hed]
  have hcd' : (dictGet? data "context_details").getD (JsonVal.obj []) = JsonVal.obj cd := hcd
  have hlow : ¬(pyStrLower "not emergency" = "emergency") := by decide
  simp [webhook, hkey, processEvent, parseGroqResponse, hparse, fallbackResponse, hed, hcd',
    pyGet, pyLower, heuristicClassification, dictGetD, dictGet?, hlow,
    forward_to_consultation]

/-- Witness for C3 at the spec's concrete timeout scenario: consultation
receives exactly the heuristic classification. -/
theorem C3_malformed_answer_fallback_witness :
    jlFail "a" = none ∧
    (webhook jlFail (OracleOutcome.answer "a") (RequestBody.valid exEvent) st0).2.consultation_store
      = [JsonVal.obj (heuristicClassification
          [("location", JsonVal.str "Main St"), ("issues", JsonVal.str "chest pain")]
          [("recipient_phone_number", JsonVal.str "555-1111")])] := by
  refine ⟨rfl, ?_⟩
  rw [C3_malformed_answer_fallback jlFail "a"
    [("location", JsonVal.str "Main St"), ("issues", JsonVal.str "chest pain")]
    [("recipient_phone_number", JsonVal.str "555-1111")] exEvent st0 rfl rfl rfl]
  rfl

/-- C7 counterexample: when the oracle answer parses to the empty object
`{}` (all four expected keys missing), the run completes and the
classification forwarded to consultation and attached to the event is the
empty object itself — no empty-string substitution for the missing
`location` (or any other) key ever appears in the resulting record. -/
theorem C7_counterexample :
    (webhook jlEmptyObj (OracleOutcome.answer "a") (RequestBody.valid exEvent) st0).2.consultation_store
      = [JsonVal.obj []] ∧
    dictGet?
        ((webhook jlEmptyObj (OracleOutcome.answer "a") (RequestBody.valid exEvent) st0).2.content_store.headD [])
        "groq_response"
      = some (JsonVal.obj []) ∧
    dictGet? ([] : Dict) "location" = none :=
  ⟨rfl, rfl, rfl⟩

/-- C7 (amended): when the oracle answer parses as an object whose
`status` entry — with the empty string substituted when the key is
missing — is a string, the parse succeeds without falling back no matter
which of the four expected keys are missing; a missing `status` key is
treated as the empty string only for the routing comparison (sending the
event to consultation), and the resulting classification is the parsed
object verbatim, missing keys left absent. -/
theorem C7_missing_keys_verbatim (jsonLoads : String → Option JsonVal)
    (t : String) (kvs : Dict) (s : String) (data : Dict) (st : St)
    (hkey : dictHasKey data "extracted_data" = true)
    (hparse : jsonLoads t = some (JsonVal.obj kvs))
    (hstatus : dictGetD kvs "status" (JsonVal.str "") = JsonVal.str s) :
    ∃ d' st', webhook jsonLoads (OracleOutcome.answer t) (RequestBody.valid data) st
        = (WebhookResponse.success d', st') ∧
      dictGet? d' "groq_response" = some (JsonVal.obj kvs) ∧
      (dictGet? kvs "status" = none →
        st'.consultation_store = st.consultation_store ++ [JsonVal.obj kvs]) := by
  by_cases hc : (pyStrLower s == "emergency") = true
  · refine ⟨dictSet (dictSet data "groq_response" (JsonVal.obj kvs)) "forward_result"
        (JsonVal.obj [("message", JsonVal.str "Data forwarded to hospital.")]),
      { st with
          content_store := st.content_store ++
            [dictSet (dictSet data "groq_response" (JsonVal.obj kvs)) "forward_result"
              (JsonVal.obj [("message", JsonVal.str "Data forwarded to hospital.")])],
          hospital_store := st.hospital_store ++ [JsonVal.obj kvs] }, ?_, ?_, ?_⟩
    · simp [webhook, hkey, processEvent, parseGroqResponse, hparse, pyGet, hstatus, pyLower, hc,
        forward_to_hospital]
    · rw [dictGet?_dictSet_of_ne _ _ _ _ (by decide), dictGet?_dictSet_self]
    · intro hmiss
      simp [dictGetD, hmiss, JsonVal.str.injEq] at hstatus
      subst hstatus
      exact absurd hc (by decide)
  · refine ⟨dictSet (dictSet data "groq_response" (JsonVal.obj kvs)) "forward_result"
        (JsonVal.obj [("message", JsonVal.str "Data forwarded to consultation.")]),
      { st with
          content_store := st.content_store ++
            [dictSet (dictSet data "groq_response" (JsonVal.obj kvs)) "forward_result"
              (JsonVal.obj [("message", JsonVal.str "Data forwarded to consultation.")])],
          consultation_store := st.consultation_store ++ [JsonVal.obj kvs] }, ?_, ?_, ?_⟩
    · simp [webhook, hkey, processEvent, parseGroqResponse, hparse, pyGet, hstatus, pyLower, hc,
        forward_to_consultation]
    · rw [dictGet?_dictSet_of_ne _ _ _ _ (by decide), dictGet?_dictSet_self]
    · intro _
      rfl

/-- Witness for C7 (amended) at the empty-object answer. -/
theorem C7_missing_keys_verbatim_witness :
    dictGetD ([] : Dict) "status" (JsonVal.str "") = JsonVal.str "" ∧
    (∃ d' st', webhook jlEmptyObj (OracleOutcome.answer "a") (RequestBody.valid exEvent) st0
        = (WebhookResponse.success d', st') ∧
      dictGet? d' "groq_response" = some (JsonVal.obj []) ∧
      (dictGet? ([] : Dict) "status" = none →
        st'.consultation_store = st0.consultation_store ++ [JsonVal.obj []])) :=
  ⟨rfl, C7_missing_keys_verbatim jlEmptyObj "a" [] "" exEvent st0 rfl rfl rfl⟩

/-- An event binding the same `extracted_data` and `context_details` as
`exEvent` but differing elsewhere, used to exhibit that the parse step
depends only on those two fields. -/
def exEventAlt : Dict :=
  [("transcript", JsonVal.str "different transcript"),
   ("extracted_data",
    JsonVal.obj [("location", JsonVal.str "Main St"), ("issues", JsonVal.str "chest pain")]),
   ("context_details", JsonVal.obj [("recipient_phone_number", JsonVal.str "555-1111")]),
   ("extra", JsonVal.num 7)]

/-- C9: the parse step of lines 119-129, heuristic fallback included, is a
pure, deterministic function of the raw answer text and the event's
`extracted_data` and `context_details` fields: any two events agreeing on
those two fields yield identical results for every answer text (so in
particular two parses of the same raw answer on the same event agree). -/
theorem C9_parse_deterministic (jsonLoads : String → Option JsonVal) (t : String)
    (d₁ d₂ : Dict)
    (h1 : dictGet? d₁ "extracted_data" = dictGet? d₂ "extracted_data")
    (h2 : dictGet? d₁ "context_details" = dictGet? d₂ "context_details") :
    parseGroqResponse jsonLoads t d₁ = parseGroqResponse jsonLoads t d₂ := by
  cases hjl : jsonLoads t with
  | some v => simp [parseGroqResponse, hjl]
  | none => simp [parseGroqResponse, hjl, fallbackResponse, dictGetD, h1, h2]

/-- Witness for C9: two different event dicts sharing `extracted_data` and
`context_details` parse identically. -/
theorem C9_parse_deterministic_witness :
    dictGet? exEvent "extracted_data" = dictGet? exEventAlt "extracted_data" ∧
    parseGroqResponse jlFail "a" exEvent = parseGroqResponse jlFail "a" exEventAlt :=
  ⟨rfl, C9_parse_deterministic jlFail "a" exEvent exEventAlt rfl rfl⟩

/-- The parsed answers on which line 132's `groq_response.get("status", "").lower()`
raises `AttributeError`: every non-object value, and every object whose
`status` entry (after the empty-string default) is not a string. -/
def statusLookupRaises (v : JsonVal) : Bool :=
  match v with
  | JsonVal.obj kvs =>
    match dictGetD kvs "status" (JsonVal.str "") with
    | JsonVal.str _ => false
    | _ => true
  | _ => true

/-- C10: if the oracle's answer parses as valid JSON whose value is not an
object with a string-valued (or absent) `status` key — a JSON array, a
bare string or number, or an object whose `status` is a number or boolean —
the webhook aborts with the HTTP 400 error response instead of recovering
via the heuristic fallback; only the raw event lands in `content_store`
and neither intake is invoked. -/
theorem C10_bad_answer_shape_aborts (jsonLoads : String → Option JsonVal)
    (t : String) (v : JsonVal) (data : Dict) (st : St)
    (hkey : dictHasKey data "extracted_data" = true)
    (hparse : jsonLoads t = some v)
    (hbad : statusLookupRaises v = true) :
    webhook jsonLoads (OracleOutcome.answer t) (RequestBody.valid data) st
      = (WebhookResponse.httpError400 PyError.attributeError,
         { st with content_store := st.content_store ++ [data] }) := by
  cases v with
  | str s => simp [webhook, hkey, processEvent, parseGroqResponse, hparse, pyGet]
  | num n => simp [webhook, hkey, processEvent, parseGroqResponse, hparse, pyGet]
  | boolean b => simp [webhook, hkey, processEvent, parseGroqResponse, hparse, pyGet]
  | null => simp [webhook, hkey, processEvent, parseGroqResponse, hparse, pyGet]
  | arr xs => simp [webhook, hkey, processEvent, parseGroqResponse, hparse, pyGet]
  | obj kvs =>
    cases hsv : dictGetD kvs "status" (JsonVal.str "") with
    | str s => simp [statusLookupRaises, hsv] at hbad
    | num n =>
      simp [webhook, hkey, processEvent, parseGroqResponse, hparse, pyGet, hsv, pyLower]
    | boolean b =>
      simp [webhook, hkey, processEvent, parseGroqResponse, hparse, pyGet, hsv, pyLower]
    | null =>
      simp [webhook, hkey, processEvent, parseGroqResponse, hparse, pyGet, hsv, pyLower]
    | arr xs =>
      simp [webhook, hkey, processEvent, parseGroqResponse, hparse, pyGet, hsv, pyLower]
    | obj kvs2 =>
      simp [webhook, hkey, processEvent, parseGroqResponse, hparse, pyGet, hsv, pyLower]

/-- Witness for C10 at a JSON-array answer. -/
theorem C10_bad_answer_shape_aborts_witness :
    statusLookupRaises (JsonVal.arr []) = true ∧
    webhook jlArray (OracleOutcome.answer "a") (RequestBody.valid exEvent) st0
      = (WebhookResponse.httpError400 PyError.attributeError,
         { st0 with content_store := st0.content_store ++ [exEvent] }) :=
  ⟨rfl, C10_bad_answer_shape_aborts jlArray "a" (JsonVal.arr []) exEvent st0 rfl rfl rfl⟩
